import Mathlib

/-!
Verification of the extent probe in src/experiments/vcpkg/main.cpp.

The program is a straight-line sequence of GDAL/OGR library calls:
read argv[1], register all drivers, GDALOpenEx in vector mode
(exit 1 when the handle is null), GetLayer(0), GetExtent through a
declared-but-never-initialized OGREnvelope pointer, log the bounding
box, GetSpatialRef()->exportToWkt, log the WKT, CPLFree the buffer,
GDALClose the dataset, return 0.

The external geospatial library is consumed as a black box, so it is
modelled by a World record that fixes, for one run, what every library
call would answer: the dataset (a list of layers, each carrying the
envelope values GetExtent stores, the success status of that query,
and an optional spatial-reference WKT) returned for each path, plus
whether the indeterminate value held by the uninitialized envelope
pointer happens to address writable storage.  Execution is a pure
function from World and argument vector to a trace of observable
events together with an outcome: a process exit code, or undefined
behavior with its cause.
-/

namespace GeodepotVcpkg

/-- Axis-aligned bounding envelope, the four fields of OGREnvelope read
at line 32 of main.cpp.  The C doubles are carried opaquely (the probe
never computes with them, it only reads and logs them), so they are
modelled by integers. -/
structure Extent where
  minX : Int
  minY : Int
  maxX : Int
  maxY : Int
deriving DecidableEq, Repr

/-- One OGR layer, as the probe observes it: the envelope values its
GetExtent stores, whether that query succeeds (a status the source
discards), and the WKT of its spatial reference, none when
GetSpatialRef would return a null pointer. -/
structure Layer where
  extentComputable : Bool
  extent : Extent
  srs : Option String
deriving DecidableEq, Repr

/-- An open GDAL dataset: its ordered list of layers.  GetLayer(i)
returns the i-th one, or a null handle out of range. -/
structure Dataset where
  layers : List Layer
deriving DecidableEq, Repr

/-- The library and machine environment of one run: what GDALOpenEx
answers for each path, whether the indeterminate value of the
uninitialized local poEnvelope (main.cpp line 30) happens to address
writable storage, and the process-wide driver-registration flag. -/
structure World where
  openResult : String → Option Dataset
  envPtrWritable : Bool
  driversRegistered : Bool

/-- Observable events of a run, in program order.  The pdalOp
constructor stands for any point-cloud parsing operation of the PDAL
library whose headers the source includes; it is part of the event
vocabulary so that its absence from every trace is a statement, not a
typing accident. -/
inductive Event where
  | registerDrivers
  | openCall (path : Option String)
  | printOpenFailed
  | getLayerCall (idx : Nat)
  | getExtentCall
  | logBbox (minX minY maxX maxY : Int)
  | getSpatialRefCall
  | exportWktCall
  | logSrs (wkt : String)
  | freeWkt
  | closeDataset
  | pdalOp
deriving DecidableEq, Repr

/-- Causes of undefined behavior the source can reach. -/
inductive UBReason where
  | nullLayerDeref
  | envelopeUninitialized
  | nullSrsDeref
deriving DecidableEq, Repr

/-- How a run ends: a process exit with a code, or undefined
behavior. -/
inductive Outcome where
  | exited (code : Nat)
  | ub (r : UBReason)
deriving DecidableEq, Repr

/-- Result of one run: the event trace, the outcome, and the world
after the run. -/
structure RunResult where
  events : List Event
  outcome : Outcome
  world : World

/-- GDALAllRegister (main.cpp line 19): process-wide registration of
all drivers, modelled as setting the registration flag. -/
def gdalAllRegister (w : World) : World :=
  { w with driversRegistered := true }

/-- GDALOpenEx (main.cpp line 22): a null filename is rejected by the
library with a null handle (its documented pointer validation), and
otherwise the answer is fixed by the world. -/
def gdalOpenEx (w : World) (path : Option String) : Option Dataset :=
  match path with
  | none => none
  | some p => w.openResult p

/-- GDALDataset::GetLayer (main.cpp line 28): the i-th layer, or a
null handle when the index is out of range. -/
def getLayer (ds : Dataset) (i : Nat) : Option Layer :=
  ds.layers[i]?

/-- The whole program, main.cpp lines 15 to 40, as a pure function
from the world and the argument vector (the argc strings; reading
argv at index argc yields the null terminator, modelled by get?) to a
run result.

Branches, in source order:
* open failed (lines 23 to 27): print the message, exit 1;
* GetLayer(0) null (line 28 with a zero-layer dataset): line 31 calls
  GetExtent on the null layer handle, undefined behavior;
* poEnvelope indeterminate and not writable (lines 30 to 31):
  GetExtent writes through the never-initialized pointer, undefined
  behavior;
* GetSpatialRef null (line 34): exportToWkt is called through the
  null pointer, undefined behavior;
* otherwise the full sequence: log bbox, export WKT, log WKT, free
  the buffer, close the dataset, return 0. -/
def main (w : World) (argv : List String) : RunResult :=
  match gdalOpenEx (gdalAllRegister w) (argv[1]?) with
  | none =>
      ⟨[.registerDrivers, .openCall (argv[1]?), .printOpenFailed],
       .exited 1, gdalAllRegister w⟩
  | some ds =>
      match getLayer ds 0 with
      | none =>
          ⟨[.registerDrivers, .openCall (argv[1]?), .getLayerCall 0],
           .ub .nullLayerDeref, gdalAllRegister w⟩
      | some layer =>
          match (gdalAllRegister w).envPtrWritable with
          | false =>
              ⟨[.registerDrivers, .openCall (argv[1]?), .getLayerCall 0,
                .getExtentCall],
               .ub .envelopeUninitialized, gdalAllRegister w⟩
          | true =>
              match layer.srs with
              | none =>
                  ⟨[.registerDrivers, .openCall (argv[1]?), .getLayerCall 0,
                    .getExtentCall,
                    .logBbox layer.extent.minX layer.extent.minY
                      layer.extent.maxX layer.extent.maxY,
                    .getSpatialRefCall],
                   .ub .nullSrsDeref, gdalAllRegister w⟩
              | some wkt =>
                  ⟨[.registerDrivers, .openCall (argv[1]?), .getLayerCall 0,
                    .getExtentCall,
                    .logBbox layer.extent.minX layer.extent.minY
                      layer.extent.maxX layer.extent.maxY,
                    .getSpatialRefCall, .exportWktCall, .logSrs wkt,
                    .freeWkt, .closeDataset],
                   .exited 0, gdalAllRegister w⟩

/-- Is this event one of the two result log lines? -/
def isLogLine : Event → Bool
  | .logBbox _ _ _ _ => true
  | .logSrs _ => true
  | _ => false

/-- Is this event a layer access, a metadata query, or a result log,
that is, anything past the open attempt? -/
def isQueryOrLog : Event → Bool
  | .getLayerCall _ => true
  | .getExtentCall => true
  | .getSpatialRefCall => true
  | .exportWktCall => true
  | .logBbox _ _ _ _ => true
  | .logSrs _ => true
  | _ => false

/-- Is this event the driver-registration call? -/
def isRegisterEvent : Event → Bool
  | .registerDrivers => true
  | _ => false

/-- Is this event a point-cloud (PDAL) operation? -/
def isPdalEvent : Event → Bool
  | .pdalOp => true
  | _ => false

/-- Is this event the allocation of the WKT string buffer (performed
inside exportToWkt)? -/
def isWktAlloc : Event → Bool
  | .exportWktCall => true
  | _ => false

/-- Is this event the release of the WKT string buffer (CPLFree)? -/
def isWktFree : Event → Bool
  | .freeWkt => true
  | _ => false

/-- Is this event the release of the dataset handle (GDALClose)? -/
def isCloseEvent : Event → Bool
  | .closeDataset => true
  | _ => false

/-- Is this event the dataset open attempt? -/
def isOpenEvent : Event → Bool
  | .openCall _ => true
  | _ => false

/-- Events allowed by the frame: registration, the open attempt and
its failure message, read-only layer and metadata queries, the two
log lines, the WKT buffer allocation and release, and the dataset
close.  Only a point-cloud operation falls outside the frame. -/
def allowedEffect : Event → Bool
  | .pdalOp => false
  | _ => true

/- Concrete fixtures used by witnesses and counterexamples. -/

/-- Sample WKT text of a spatial reference. -/
def wgs84 : String := "WGS 84"

/-- Sample dataset path handed to the probe. -/
def samplePath : String := "data.gpkg"

/-- Sample program name, argv entry 0. -/
def progName : String := "probe"

/-- Sample argument vector with one positional argument. -/
def probeArgv : List String := [progName, samplePath]

/-- A layer with a computable extent and a spatial reference. -/
def wgs84Layer : Layer :=
  { extentComputable := true, extent := ⟨0, 0, 10, 5⟩, srs := some wgs84 }

/-- A one-layer dataset around wgs84Layer. -/
def oneLayerDataset : Dataset := ⟨[wgs84Layer]⟩

/-- A layer whose GetSpatialRef would return a null pointer. -/
def noSrsLayer : Layer :=
  { extentComputable := true, extent := ⟨0, 0, 10, 5⟩, srs := none }

/-- World where every open succeeds on oneLayerDataset and the
indeterminate envelope pointer happens to be writable. -/
def goodWorld : World :=
  { openResult := fun _ => some oneLayerDataset,
    envPtrWritable := true, driversRegistered := false }

/-- Same dataset, but the indeterminate envelope pointer does not
address writable storage. -/
def badPtrWorld : World :=
  { openResult := fun _ => some oneLayerDataset,
    envPtrWritable := false, driversRegistered := false }

/-- World where no path opens. -/
def failWorld : World :=
  { openResult := fun _ => none,
    envPtrWritable := true, driversRegistered := false }

/-- World whose datasets all have zero layers. -/
def emptyDsWorld : World :=
  { openResult := fun _ => some ⟨[]⟩,
    envPtrWritable := true, driversRegistered := false }

/-- World whose single layer lacks a spatial reference. -/
def noSrsWorld : World :=
  { openResult := fun _ => some ⟨[noSrsLayer]⟩,
    envPtrWritable := true, driversRegistered := false }

/- Helper lemmas. -/

/-- Registration does not change what GDALOpenEx answers. -/
theorem gdalOpenEx_gdalAllRegister (w : World) (p : Option String) :
    gdalOpenEx (gdalAllRegister w) p = gdalOpenEx w p := by
  cases p <;> rfl

/-- Registering twice is the same as registering once. -/
theorem gdalAllRegister_idem (w : World) :
    gdalAllRegister (gdalAllRegister w) = gdalAllRegister w := rfl

/-- The world after any run is the input world with the drivers
registered: nothing else in the environment is written. -/
theorem main_world (w : World) (argv : List String) :
    (main w argv).world = gdalAllRegister w := by
  unfold main
  repeat' split <;> try rfl

/-- Running from an already-registered world gives the same result. -/
theorem main_gdalAllRegister (w : World) (argv : List String) :
    main (gdalAllRegister w) argv = main w argv := by
  unfold main
  rw [gdalAllRegister_idem]

/-- C1, counterexample: a run whose dataset opens on a one-layer
dataset with computable extent and spatial reference, but in which
the uninitialized envelope pointer does not address writable storage.
The claimed conclusion fails: no log line is emitted and the process
does not exit with code 0 (GetExtent writes through the indeterminate
pointer, undefined behavior). -/
theorem C1_counterexample :
    gdalOpenEx badPtrWorld (probeArgv[1]?) = some oneLayerDataset
    ∧ wgs84Layer.extentComputable = true
    ∧ wgs84Layer.srs = some wgs84
    ∧ (main badPtrWorld probeArgv).events.filter isLogLine = []
    ∧ (main badPtrWorld probeArgv).outcome ≠ .exited 0 := by
  refine ⟨rfl, rfl, rfl, rfl, ?_⟩
  decide

/-- C1 (amended): for every run whose dataset opens successfully,
whose first layer has a computable extent and a spatial reference,
and in which the uninitialized envelope pointer happens to address
writable storage, the probe emits exactly two log lines, one with the
four extent numbers MinX, MinY, MaxX, MaxY of the first layer and one
with the spatial-reference WKT, and the process exits with code 0. -/
theorem C1_success_two_logs_exit0 (w : World) (argv : List String)
    (ds : Dataset) (layer : Layer) (wkt : String)
    (hopen : gdalOpenEx w (argv[1]?) = some ds)
    (hlayer : getLayer ds 0 = some layer)
    (_hext : layer.extentComputable = true)
    (hsrs : layer.srs = some wkt)
    (henv : w.envPtrWritable = true) :
    (main w argv).events.filter isLogLine =
      [.logBbox layer.extent.minX layer.extent.minY
        layer.extent.maxX layer.extent.maxY, .logSrs wkt]
    ∧ (main w argv).outcome = .exited 0 := by
  have h : gdalOpenEx (gdalAllRegister w) (argv[1]?) = some ds := by
    rw [gdalOpenEx_gdalAllRegister]; exact hopen
  have he : (gdalAllRegister w).envPtrWritable = true := henv
  constructor <;> simp [main, h, hlayer, he, hsrs, isLogLine]

/-- C1 witness: the amended theorem applied at a concrete world. -/
theorem C1_success_two_logs_exit0_witness :
    (main goodWorld probeArgv).events.filter isLogLine =
      [.logBbox 0 0 10 5, .logSrs wgs84]
    ∧ (main goodWorld probeArgv).outcome = .exited 0 :=
  C1_success_two_logs_exit0 goodWorld probeArgv oneLayerDataset
    wgs84Layer wgs84 rfl rfl rfl rfl rfl

/-- C2: when the open call returns a null handle the run prints the
failure message and exits with code 1, performing no layer access,
extent query, spatial-reference query, or result logging; conversely,
exit code 1 arises only on this open-failure path. -/
theorem C2_open_failure (w : World) (argv : List String) :
    (gdalOpenEx w (argv[1]?) = none →
      (main w argv).events =
        [.registerDrivers, .openCall (argv[1]?), .printOpenFailed]
      ∧ (main w argv).outcome = .exited 1
      ∧ (main w argv).events.all (fun e => !(isQueryOrLog e)) = true)
    ∧ ((main w argv).outcome = .exited 1 →
      gdalOpenEx w (argv[1]?) = none) := by
  constructor
  · intro h
    have h1 : gdalOpenEx (gdalAllRegister w) (argv[1]?) = none := by
      rw [gdalOpenEx_gdalAllRegister]; exact h
    refine ⟨?_, ?_, ?_⟩ <;> simp [main, h1, isQueryOrLog]
  · intro h
    rw [← gdalOpenEx_gdalAllRegister w (argv[1]?)]
    cases hopen : gdalOpenEx (gdalAllRegister w) (argv[1]?) with
    | none => rfl
    | some ds =>
      exfalso
      cases hl : getLayer ds 0 with
      | none => simp [main, hopen, hl] at h
      | some layer =>
        cases he : (gdalAllRegister w).envPtrWritable with
        | false => simp [main, hopen, hl, he] at h
        | true =>
          cases hs : layer.srs with
          | none => simp [main, hopen, hl, he, hs] at h
          | some wkt => simp [main, hopen, hl, he, hs] at h

/-- C2 witness: the theorem applied at a world where no path opens,
discharging both hypotheses there. -/
theorem C2_open_failure_witness :
    ((main failWorld probeArgv).events =
        [.registerDrivers, .openCall (some samplePath), .printOpenFailed]
      ∧ (main failWorld probeArgv).outcome = .exited 1
      ∧ (main failWorld probeArgv).events.all
          (fun e => !(isQueryOrLog e)) = true)
    ∧ gdalOpenEx failWorld (probeArgv[1]?) = none :=
  ⟨(C2_open_failure failWorld probeArgv).1 rfl,
   (C2_open_failure failWorld probeArgv).2
     ((C2_open_failure failWorld probeArgv).1 rfl).2.1⟩

/-- C3: the source declares poEnvelope (main.cpp line 30) and passes
it to GetExtent (line 31) without ever initializing it or binding it
to an allocation, so no run establishes that it addresses valid
envelope storage: whenever the indeterminate value is not writable,
the run that reaches the extent query is undefined behavior rather
than a read of query-produced values.  This refutes the claimed
validity and exhibits the code slip the claim itself records. -/
theorem C3_envelope_uninitialized (w : World) (argv : List String)
    (ds : Dataset) (layer : Layer)
    (hopen : gdalOpenEx w (argv[1]?) = some ds)
    (hlayer : getLayer ds 0 = some layer)
    (henv : w.envPtrWritable = false) :
    (main w argv).outcome = .ub .envelopeUninitialized
    ∧ (main w argv).events =
      [.registerDrivers, .openCall (argv[1]?), .getLayerCall 0,
       .getExtentCall] := by
  have h : gdalOpenEx (gdalAllRegister w) (argv[1]?) = some ds := by
    rw [gdalOpenEx_gdalAllRegister]; exact hopen
  have he : (gdalAllRegister w).envPtrWritable = false := henv
  constructor <;> simp [main, h, hlayer, he]

/-- C3 witness: the theorem applied at the failing input. -/
theorem C3_envelope_uninitialized_witness :
    (main badPtrWorld probeArgv).outcome = .ub .envelopeUninitialized
    ∧ (main badPtrWorld probeArgv).events =
      [.registerDrivers, .openCall (some samplePath), .getLayerCall 0,
       .getExtentCall] :=
  C3_envelope_uninitialized badPtrWorld probeArgv oneLayerDataset
    wgs84Layer rfl rfl rfl

/-- C4: when the dataset opens but has zero layers, GetLayer(0)
yields a null layer handle and the probe calls GetExtent through that
null handle with no intervening check, so the run is undefined
behavior and in particular terminates with no exit code at all. -/
theorem C4_zero_layers_null_deref (w : World) (argv : List String)
    (ds : Dataset)
    (hopen : gdalOpenEx w (argv[1]?) = some ds)
    (hzero : ds.layers = []) :
    getLayer ds 0 = none
    ∧ (main w argv).outcome = .ub .nullLayerDeref
    ∧ (main w argv).events =
      [.registerDrivers, .openCall (argv[1]?), .getLayerCall 0]
    ∧ ∀ c, (main w argv).outcome ≠ .exited c := by
  have h : gdalOpenEx (gdalAllRegister w) (argv[1]?) = some ds := by
    rw [gdalOpenEx_gdalAllRegister]; exact hopen
  have hl : getLayer ds 0 = none := by
    simp [getLayer, hzero]
  refine ⟨hl, ?_, ?_, ?_⟩
  · simp [main, h, hl]
  · simp [main, h, hl]
  · intro c
    simp [main, h, hl]

/-- C4 witness: the theorem applied at a world whose datasets have
zero layers. -/
theorem C4_zero_layers_null_deref_witness :
    getLayer ⟨[]⟩ 0 = none
    ∧ (main emptyDsWorld probeArgv).outcome = .ub .nullLayerDeref
    ∧ (main emptyDsWorld probeArgv).events =
      [.registerDrivers, .openCall (some samplePath), .getLayerCall 0]
    ∧ (main emptyDsWorld probeArgv).outcome ≠ .exited 1 :=
  ⟨(C4_zero_layers_null_deref emptyDsWorld probeArgv ⟨[]⟩ rfl rfl).1,
   (C4_zero_layers_null_deref emptyDsWorld probeArgv ⟨[]⟩ rfl rfl).2.1,
   (C4_zero_layers_null_deref emptyDsWorld probeArgv ⟨[]⟩ rfl rfl).2.2.1,
   (C4_zero_layers_null_deref emptyDsWorld probeArgv ⟨[]⟩ rfl rfl).2.2.2 1⟩

/-- C5: on a run that reaches the spatial-reference query (dataset
open, layer present, the indeterminate envelope pointer writable), a
layer without a spatial reference makes GetSpatialRef return a null
pointer and the probe calls exportToWkt through it with no
intervening null check: the run is undefined behavior, not a reported
error. -/
theorem C5_null_srs_deref (w : World) (argv : List String)
    (ds : Dataset) (layer : Layer)
    (hopen : gdalOpenEx w (argv[1]?) = some ds)
    (hlayer : getLayer ds 0 = some layer)
    (henv : w.envPtrWritable = true)
    (hsrs : layer.srs = none) :
    (main w argv).outcome = .ub .nullSrsDeref
    ∧ (main w argv).events =
      [.registerDrivers, .openCall (argv[1]?), .getLayerCall 0,
       .getExtentCall,
       .logBbox layer.extent.minX layer.extent.minY
         layer.extent.maxX layer.extent.maxY,
       .getSpatialRefCall]
    ∧ ∀ c, (main w argv).outcome ≠ .exited c := by
  have h : gdalOpenEx (gdalAllRegister w) (argv[1]?) = some ds := by
    rw [gdalOpenEx_gdalAllRegister]; exact hopen
  have he : (gdalAllRegister w).envPtrWritable = true := henv
  refine ⟨?_, ?_, ?_⟩
  · simp [main, h, hlayer, he, hsrs]
  · simp [main, h, hlayer, he, hsrs]
  · intro c
    simp [main, h, hlayer, he, hsrs]

/-- C5 witness: the theorem applied at a world whose single layer
lacks a spatial reference. -/
theorem C5_null_srs_deref_witness :
    (main noSrsWorld probeArgv).outcome = .ub .nullSrsDeref
    ∧ (main noSrsWorld probeArgv).events =
      [.registerDrivers, .openCall (some samplePath), .getLayerCall 0,
       .getExtentCall, .logBbox 0 0 10 5, .getSpatialRefCall]
    ∧ (main noSrsWorld probeArgv).outcome ≠ .exited 1 :=
  ⟨(C5_null_srs_deref noSrsWorld probeArgv ⟨[noSrsLayer]⟩ noSrsLayer
      rfl rfl rfl rfl).1,
   (C5_null_srs_deref noSrsWorld probeArgv ⟨[noSrsLayer]⟩ noSrsLayer
      rfl rfl rfl rfl).2.1,
   (C5_null_srs_deref noSrsWorld probeArgv ⟨[noSrsLayer]⟩ noSrsLayer
      rfl rfl rfl rfl).2.2 1⟩

/-- C6: running the probe again on the world left by a first run (the
dataset is unmodified, only the process-wide registration flag was
set) reproduces the first run exactly: same events, same outcome,
same final world. -/
theorem C6_second_run_identical (w : World) (argv : List String) :
    main (main w argv).world argv = main w argv := by
  rw [main_world, main_gdalAllRegister]

/-- C7: on a successful run the trace is exactly the source sequence,
so both log lines are emitted before the WKT buffer is freed, and the
buffer is freed before the dataset handle is closed; on the
open-failure path the trace holds no buffer allocation, no free and
no close: nothing was acquired, so exiting without release leaks
nothing. -/
theorem C7_release_after_logs (w : World) (argv : List String) :
    (∀ ds layer wkt,
      gdalOpenEx w (argv[1]?) = some ds →
      getLayer ds 0 = some layer →
      w.envPtrWritable = true →
      layer.srs = some wkt →
      (main w argv).events =
        [.registerDrivers, .openCall (argv[1]?), .getLayerCall 0,
         .getExtentCall,
         .logBbox layer.extent.minX layer.extent.minY
           layer.extent.maxX layer.extent.maxY,
         .getSpatialRefCall, .exportWktCall, .logSrs wkt,
         .freeWkt, .closeDataset])
    ∧ (gdalOpenEx w (argv[1]?) = none →
      (main w argv).events =
        [.registerDrivers, .openCall (argv[1]?), .printOpenFailed]
      ∧ (main w argv).events.countP (fun e => isWktAlloc e) = 0
      ∧ (main w argv).events.countP (fun e => isWktFree e) = 0
      ∧ (main w argv).events.countP (fun e => isCloseEvent e) = 0) := by
  constructor
  · intro ds layer wkt hopen hlayer henv hsrs
    have h : gdalOpenEx (gdalAllRegister w) (argv[1]?) = some ds := by
      rw [gdalOpenEx_gdalAllRegister]; exact hopen
    have he : (gdalAllRegister w).envPtrWritable = true := henv
    simp [main, h, hlayer, he, hsrs]
  · intro hopen
    have h : gdalOpenEx (gdalAllRegister w) (argv[1]?) = none := by
      rw [gdalOpenEx_gdalAllRegister]; exact hopen
    refine ⟨?_, ?_, ?_, ?_⟩ <;>
      simp [main, h, isWktAlloc, isWktFree, isCloseEvent, List.countP_cons]

/-- C7 witness: both halves of the theorem, applied respectively at a
world where the run succeeds and at a world where the open fails. -/
theorem C7_release_after_logs_witness :
    (main goodWorld probeArgv).events =
      [.registerDrivers, .openCall (some samplePath), .getLayerCall 0,
       .getExtentCall, .logBbox 0 0 10 5, .getSpatialRefCall,
       .exportWktCall, .logSrs wgs84, .freeWkt, .closeDataset]
    ∧ ((main failWorld probeArgv).events =
        [.registerDrivers, .openCall (some samplePath), .printOpenFailed]
      ∧ (main failWorld probeArgv).events.countP (fun e => isWktAlloc e) = 0
      ∧ (main failWorld probeArgv).events.countP (fun e => isWktFree e) = 0
      ∧ (main failWorld probeArgv).events.countP
          (fun e => isCloseEvent e) = 0) :=
  ⟨(C7_release_after_logs goodWorld probeArgv).1 oneLayerDataset
      wgs84Layer wgs84 rfl rfl rfl rfl,
   (C7_release_after_logs failWorld probeArgv).2 rfl⟩

/-- C8: in every run the driver registration event occurs exactly
once and is the first event, immediately followed by the open
attempt, so registration precedes the open; and registration is
idempotent on the process-wide state: registering twice leaves the
same driver state as registering once. -/
theorem C8_registration_once_idem (w : World) (argv : List String) :
    gdalAllRegister (gdalAllRegister w) = gdalAllRegister w
    ∧ (main w argv).events.countP (fun e => isRegisterEvent e) = 1
    ∧ (main w argv).events.take 2 =
      [.registerDrivers, .openCall (argv[1]?)] := by
  refine ⟨rfl, ?_, ?_⟩ <;>
    · unfold main
      repeat' split
      all_goals simp [isRegisterEvent, List.countP_cons]

/-- C9: the frame of every run: every event of the trace is an
allowed effect (registration, the open attempt and its failure
message, read-only queries, the two log lines, the WKT buffer
allocation and release, the dataset close), no point-cloud (PDAL)
operation ever occurs, the environment is left unchanged except for
the registration flag (in particular no dataset is mutated), exactly
one open attempt is made, at most one dataset close and at most one
WKT buffer allocation happen, and every allocated WKT buffer is
freed. -/
theorem C9_frame_effects (w : World) (argv : List String) :
    (main w argv).events.all allowedEffect = true
    ∧ (main w argv).events.countP (fun e => isPdalEvent e) = 0
    ∧ (main w argv).world = gdalAllRegister w
    ∧ (main w argv).world.openResult = w.openResult
    ∧ (main w argv).events.countP (fun e => isOpenEvent e) = 1
    ∧ (main w argv).events.countP (fun e => isCloseEvent e) ≤ 1
    ∧ (main w argv).events.countP (fun e => isWktAlloc e) ≤ 1
    ∧ (main w argv).events.countP (fun e => isWktAlloc e) =
      (main w argv).events.countP (fun e => isWktFree e) := by
  refine ⟨?_, ?_, main_world w argv, ?_, ?_, ?_, ?_, ?_⟩ <;>
    first
    | (rw [main_world]; rfl)
    | (unfold main
       repeat' split
       all_goals simp [allowedEffect, isPdalEvent, isOpenEvent,
         isCloseEvent, isWktAlloc, isWktFree, List.countP_cons])

/-- C10: invoked with no positional argument (argv holds only the
program name), the probe performs no argument-count check: reading
argv at index 1 yields the null terminator, a null path is passed to
the open call, and the run is funneled into the very open-failure
path of C2 (failure message, exit code 1) rather than a distinct
usage error. -/
theorem C10_missing_argument (w : World) (prog : String) :
    ([prog][1]? = (none : Option String))
    ∧ (main w [prog]).events =
      [.registerDrivers, .openCall none, .printOpenFailed]
    ∧ (main w [prog]).outcome = .exited 1 :=
  ⟨rfl, rfl, rfl⟩

end GeodepotVcpkg
